import Mathlib

/-!
Verification of the axis-calibration subsystem of `evdev-joystick-rs`.

The definitions below are a shallow embedding of the Rust sources:
  * `src/evdev-absinfo/src/lib.rs`  (calibration store, normalization, bitmask check)
  * `src/evdev-absinfo/src/raw.rs`  (ioctl request-code encoding)
  * `src/evdev-joystick/src/joystick.rs` (duplicate normalization / flatness code)
  * `src/evdev-joystick/src/events.rs`   (lazy event iterator)

Machine integers (`i16`, `i32`, `i64`) are modelled as `Int`; all intermediary
arithmetic of `get_normalized_value` is performed in `i64` in the source, and with
`i32` fields the products stay far below `2^63`, so plain `Int` arithmetic is exact
there.  Rust `/` on signed integers truncates toward zero and is modelled by
`Int.tdiv`; Rust `div_euclid` is modelled by `Int.ediv`.  Fallible operations
(`i16::try_from(..).expect(..)`, division by zero, out-of-bounds indexing) are
modelled by `Option` / explicit `panic` constructors.
-/

/-- The `libc::input_absinfo` struct (`CAbsInfo` in `lib.rs`): six `i32` fields in
kernel ABI order. -/
structure CAbsInfo where
  value : Int
  minimum : Int
  maximum : Int
  fuzz : Int
  flat : Int
  resolution : Int
deriving DecidableEq

/-- `i16::MIN` as used by the normalization code. -/
def I16_MIN : Int := -32768

/-- `i16::MAX`, the upper bound enforced by `i16::try_from`. -/
def I16_MAX : Int := 32767

/-- `const I16_RANGE: i64 = u16::MAX as i64;` from `get_normalized_value`. -/
def I16_RANGE : Int := 65535

/-- `value.max(minimum).min(maximum)` from `get_normalized_value`. -/
def clamp_value (c : CAbsInfo) : Int := min (max c.value c.minimum) c.maximum

/-- `i64::from(maximum) - i64::from(minimum)` from `get_normalized_value`. -/
def range_size (c : CAbsInfo) : Int := c.maximum - c.minimum

/-- `i64::from(i16::MIN) - i64::from(minimum)` from `get_normalized_value`. -/
def translation_term (c : CAbsInfo) : Int := I16_MIN - c.minimum

/-- The `i64` quantity `value * I16_RANGE / range_size + translation` computed by
`get_normalized_value` before the `i16::try_from` conversion.  Rust `i64` division
truncates toward zero, hence `Int.tdiv`. -/
def norm_value_pre (c : CAbsInfo) : Int :=
  Int.tdiv (clamp_value c * I16_RANGE) (range_size c) + translation_term c

/-- Two's-complement wrap of an integer into the `i32` range, the release-mode
semantics of `i32` arithmetic overflow in Rust.  Only the negation `-flat` inside
`apply_flatness` can overflow (at `flat = i32::MIN`); all other arithmetic in the
embedded code stays in range. -/
def wrap32 (n : Int) : Int := (n + 2 ^ 31) % 2 ^ 32 - 2 ^ 31

/-- `fn apply_flatness(value: i16, flat: i32) -> i16` from `lib.rs` (an identical
copy lives in `joystick.rs`): returns `0` when the value lies in the inclusive band
`[(-flat).div_euclid(2), flat.div_euclid(2)]`, the value unchanged otherwise.
Rust `div_euclid` is `Int.ediv`; the negation of `flat` wraps at `i32::MIN`. -/
def apply_flatness (value : Int) (flat : Int) : Int :=
  if Int.ediv (wrap32 (-flat)) 2 ≤ value ∧ value ≤ Int.ediv flat 2 then 0 else value

/-- `AbsInfo::get_normalized_value` from `lib.rs` (textually identical to
`JoystickAbsInfo::normalized_value` in `joystick.rs`).  The source can panic in two
places, both modelled as `none`: the `i64` division panics when `range_size` is
zero, and `i16::try_from(..).expect(..)` panics when the scaled value falls outside
the `i16` range. -/
def get_normalized_value (c : CAbsInfo) : Option Int :=
  if range_size c = 0 then none
  else if norm_value_pre c < I16_MIN ∨ I16_MAX < norm_value_pre c then none
  else some (apply_flatness (norm_value_pre c) c.flat)

/-- Replace the `value` field of a calibration, leaving the rest unchanged. -/
def set_value (c : CAbsInfo) (v : Int) : CAbsInfo :=
  ⟨v, c.minimum, c.maximum, c.fuzz, c.flat, c.resolution⟩

/-- Replace the `flat` field of a calibration, leaving the rest unchanged. -/
def set_flat (c : CAbsInfo) (f : Int) : CAbsInfo :=
  ⟨c.value, c.minimum, c.maximum, c.fuzz, f, c.resolution⟩

/-! ### Ioctl request-code encoding (`src/evdev-absinfo/src/raw.rs`)

`raw.rs` declares the `_IOC` bit-field constants for both architecture families
(the `cfg_if` block) and builds the request codes through the `nix`
`request_code_read!` / `request_code_write!` macros, whose constants coincide with
the ones declared in `raw.rs`.  The layout is captured by an explicit record so
both build targets can be verified. -/

/-- `const IOC_NRBITS: u32 = 8;` from `raw.rs`. -/
def IOC_NRBITS : Nat := 8

/-- `const IOC_TYPEBITS: u32 = 8;` from `raw.rs`. -/
def IOC_TYPEBITS : Nat := 8

/-- The architecture-dependent half of the `_IOC` layout: field widths for the
size/direction fields and the numeric values of the three directions. -/
structure IocArch where
  sizebits : Nat
  dirbits : Nat
  iocNone : Nat
  iocRead : Nat
  iocWrite : Nat
deriving DecidableEq

/-- The `else` branch of the `cfg_if` in `raw.rs` (x86, arm, riscv, ...):
SIZEBITS 14, DIRBITS 2, NONE 0, READ 2, WRITE 1. -/
def defaultArch : IocArch := ⟨14, 2, 0, 2, 1⟩

/-- The first `cfg_if` branch in `raw.rs` (powerpc / sparc / mips families):
SIZEBITS 13, DIRBITS 3, NONE 1, READ 2, WRITE 4. -/
def altArch : IocArch := ⟨13, 3, 1, 2, 4⟩

/-- Shift of the command-number field (`_IOC_NRSHIFT`). -/
def IOC_NRSHIFT : Nat := 0

/-- Shift of the magic-byte field (`_IOC_TYPESHIFT`). -/
def IOC_TYPESHIFT : Nat := IOC_NRSHIFT + IOC_NRBITS

/-- Shift of the payload-size field (`_IOC_SIZESHIFT`). -/
def ioc_sizeshift : Nat := IOC_TYPESHIFT + IOC_TYPEBITS

/-- Shift of the direction field (`_IOC_DIRSHIFT`), architecture dependent. -/
def ioc_dirshift (A : IocArch) : Nat := ioc_sizeshift + A.sizebits

/-- The `_IOC(dir,type,nr,size)` packing used by the `nix` `request_code` macros:
OR of the four fields at their platform shifts. -/
def ioc (A : IocArch) (dir ty nr size : Nat) : Nat :=
  (dir <<< ioc_dirshift A) ||| (ty <<< IOC_TYPESHIFT) |||
    (nr <<< IOC_NRSHIFT) ||| (size <<< ioc_sizeshift)

/-- `size_of::<input_absinfo>()`: six `i32` fields, 24 bytes. -/
def absinfo_size : Nat := 24

/-- The magic byte `b'E'`. -/
def EVDEV_MAGIC : Nat := 0x45

/-- `evioc_get_abs` from `raw.rs`: read direction, command number `0x40 + axis`. -/
def evioc_get_abs (A : IocArch) (axis : Nat) : Nat :=
  ioc A A.iocRead EVDEV_MAGIC (0x40 + axis) absinfo_size

/-- `evioc_set_abs` from `raw.rs`: write direction, command number `0xc0 + axis`. -/
def evioc_set_abs (A : IocArch) (axis : Nat) : Nat :=
  ioc A A.iocWrite EVDEV_MAGIC (0xc0 + axis) absinfo_size

/-! ### Capability bitmask and the calibration store (`src/evdev-absinfo/src/lib.rs`) -/

/-- `libc::ABS_MAX`: the largest valid absolute-axis index (0x3f). -/
def ABS_MAX : Nat := 63

/-- Modelled from the spec: the type `AbsBitMask` and the ioctl wrapper
`evioc_get_abs_bit` are referenced from `src/evdev-absinfo/src/lib.rs` but their
definitions are not present in `src/evdev-absinfo/src/raw.rs` as given; the spec
(section 3) sizes the capability bitmask at `(MAX_AXIS_INDEX / 8) + 1` bytes, bit
`i` set iff absolute axis `i` is supported. -/
def ABS_BITMASK_LEN : Nat := ABS_MAX / 8 + 1

/-- `const fn test_axis(axis_index: u16, bit_array: &AbsBitMask) -> bool`:
`bit_array[(axis_index / 8) as usize] & (1 << (axis_index % 8)) != 0`.
The bitmask is a byte array; an out-of-bounds index panics in Rust and is
modelled as `none`. -/
def test_axis (axis_index : Nat) (bit_array : List Nat) : Option Bool :=
  match bit_array.get? (axis_index / 8) with
  | none => none
  | some byte => some (byte &&& (1 <<< (axis_index % 8)) != 0)

/-- The `Error` enum of `lib.rs`: `CErrno`, `UnboundAxis`, `NonAbsAxis`. -/
inductive AbsError where
  | cErrno (e : Int)
  | unboundAxis (axis : Nat)
  | nonAbsAxis (axis : Nat)
deriving DecidableEq

/-- The three ioctls the store can issue, recorded as a syscall trace. -/
inductive Syscall where
  | getAbsBit
  | getAbs (axis : Nat)
  | setAbs (axis : Nat)
deriving DecidableEq

/-- Result of running a store operation: normal return, typed error, or a Rust
panic (out-of-bounds indexing). -/
inductive RunResult (α : Type) where
  | ok (a : α)
  | err (e : AbsError)
  | panic
deriving DecidableEq

/-- A store operation's result together with the ioctls issued, in order. -/
structure Outcome (α : Type) where
  result : RunResult α
  trace : List Syscall
deriving DecidableEq

/-- Modelled from the spec: the device handle behind the raw ioctls (section 6),
characterised by the reply each ioctl produces.  `absBitmaskReply` is the
get-bitmask ioctl (`evioc_get_abs_bit`, whose definition is absent from the given
`raw.rs`), `getAbsReply` the get-calibration ioctl, `setAbsReply` the
set-calibration ioctl; `Except.error` carries the raw OS error code. -/
structure DeviceModel where
  absBitmaskReply : Except Int (List Nat)
  getAbsReply : Nat → Except Int CAbsInfo
  setAbsReply : Nat → Except Int Unit

/-- `fn check_valid_axis(fd, axis_index)` from `lib.rs`: issues the get-bitmask
ioctl (propagating its errno via `?`), then tests the axis bit; an unset bit is
`NonAbsAxis`, an out-of-bounds byte index is a panic. -/
def check_valid_axis (dev : DeviceModel) (axis_index : Nat) : Outcome Unit :=
  match dev.absBitmaskReply with
  | Except.error e => ⟨RunResult.err (AbsError.cErrno e), [Syscall.getAbsBit]⟩
  | Except.ok mask =>
    match test_axis axis_index mask with
    | none => ⟨RunResult.panic, [Syscall.getAbsBit]⟩
    | some false => ⟨RunResult.err (AbsError.nonAbsAxis axis_index), [Syscall.getAbsBit]⟩
    | some true => ⟨RunResult.ok (), [Syscall.getAbsBit]⟩

/-- `AbsInfo::get_absinfo(file, axis_index)` from `lib.rs`: the bound check
against `ABS_MAX` comes first (before any syscall), then `check_valid_axis`, then
the get-calibration ioctl. -/
def get_absinfo (dev : DeviceModel) (axis_index : Nat) : Outcome CAbsInfo :=
  if ABS_MAX < axis_index then ⟨RunResult.err (AbsError.unboundAxis axis_index), []⟩
  else
    match check_valid_axis dev axis_index with
    | ⟨RunResult.ok _, tr⟩ =>
      match dev.getAbsReply axis_index with
      | Except.error e => ⟨RunResult.err (AbsError.cErrno e), tr ++ [Syscall.getAbs axis_index]⟩
      | Except.ok info => ⟨RunResult.ok info, tr ++ [Syscall.getAbs axis_index]⟩
    | ⟨RunResult.err e, tr⟩ => ⟨RunResult.err e, tr⟩
    | ⟨RunResult.panic, tr⟩ => ⟨RunResult.panic, tr⟩

/-- `AbsInfo::set_absinfo(self, file)` from `lib.rs`: note that unlike
`get_absinfo` it performs NO bound check on the axis; it goes straight to
`check_valid_axis` and then issues the set-calibration ioctl. -/
def set_absinfo (dev : DeviceModel) (axis : Nat) (_info : CAbsInfo) : Outcome Unit :=
  match check_valid_axis dev axis with
  | ⟨RunResult.ok _, tr⟩ =>
    match dev.setAbsReply axis with
    | Except.error e => ⟨RunResult.err (AbsError.cErrno e), tr ++ [Syscall.setAbs axis]⟩
    | Except.ok _ => ⟨RunResult.ok (), tr ++ [Syscall.setAbs axis]⟩
  | ⟨RunResult.err e, tr⟩ => ⟨RunResult.err e, tr⟩
  | ⟨RunResult.panic, tr⟩ => ⟨RunResult.panic, tr⟩

/-- A concrete all-zero calibration record, used for closed instances. -/
def info0 : CAbsInfo := ⟨0, 0, 0, 0, 0, 0⟩

/-- A concrete device fixture: bitmask ioctl succeeds with an all-zero 8-byte
mask, calibration ioctls succeed. -/
def dev0 : DeviceModel :=
  ⟨Except.ok (List.replicate ABS_BITMASK_LEN 0),
   fun _ => Except.ok info0,
   fun _ => Except.ok ()⟩

/-! ### Lazy event iterator (`src/evdev-joystick/src/events.rs`)

`JoystickEvents::next` loops over `device.next_event(read_flag)`.  The device is
modelled as a finite script of read replies consumed one per call, as in the
spec's fixture scenario (section 8). -/

/-- `ReadFlag::NORMAL` / `ReadFlag::SYNC`, the flag passed to `next_event`. -/
inductive ReadFlag where
  | normal
  | sync
deriving DecidableEq

/-- One scripted reply of `next_event`: `Ok((ReadStatus::Success, event))`,
`Ok((ReadStatus::Sync, event))`, `Err(EAGAIN)`, or any other I/O error. -/
inductive ReadReply where
  | success (e : Nat)
  | sync (e : Nat)
  | errAgain
  | errOther
deriving DecidableEq

/-- `JoystickEvents::next`: loop until an event is delivered.  `Success` returns
the event; `Sync` switches the flag to SYNC and retries (discarding the event
packaged with the status); `EAGAIN` resets the flag to NORMAL and retries; any
other error ends the iterator (`None`).  Returns the yielded event (if any) and
the unconsumed remainder of the script. -/
def joystickNext (_flag : ReadFlag) : List ReadReply → Option Nat × List ReadReply
  | [] => (none, [])
  | ReadReply.success e :: rest => (some e, rest)
  | ReadReply.sync _ :: rest => joystickNext ReadFlag.sync rest
  | ReadReply.errAgain :: rest => joystickNext ReadFlag.normal rest
  | ReadReply.errOther :: rest => (none, rest)

/-- Pull the iterator repeatedly (each fresh `next` call starts in NORMAL mode,
as `next` re-initialises `read_flag`), collecting the yielded events until it
returns `None`; `fuel` bounds the number of pulls. -/
def pullEvents : Nat → List ReadReply → List Nat
  | 0, _ => []
  | Nat.succ fuel, script =>
    match joystickNext ReadFlag.normal script with
    | (some e, rest) => e :: pullEvents fuel rest
    | (none, _) => []

/-- All events the iterator yields over a finite script (each pull consumes at
least one scripted reply, so `script.length` pulls suffice). -/
def allEvents (script : List ReadReply) : List Nat := pullEvents script.length script

/-! ### Helper lemmas -/

/-- Truncating division (`Int.tdiv`, Rust `/`) by a positive divisor is monotone
in the numerator. -/
theorem tdiv_le_tdiv_of_le {a b d : Int} (hd : 0 < d) (hab : a ≤ b) :
    Int.tdiv a d ≤ Int.tdiv b d := by
  rcases le_or_lt 0 a with ha | ha
  · have hb : 0 ≤ b := le_trans ha hab
    rw [Int.tdiv_eq_ediv ha (le_of_lt hd), Int.tdiv_eq_ediv hb (le_of_lt hd)]
    exact Int.ediv_le_ediv hd hab
  · rcases le_or_lt 0 b with hb | hb
    · have h1 : Int.tdiv a d ≤ 0 := by
        have h0 : 0 ≤ Int.tdiv (-a) d := Int.tdiv_nonneg (by omega) (le_of_lt hd)
        rw [Int.neg_tdiv] at h0
        omega
      have h2 : 0 ≤ Int.tdiv b d := Int.tdiv_nonneg hb (le_of_lt hd)
      omega
    · have key : Int.tdiv (-b) d ≤ Int.tdiv (-a) d := by
        rw [Int.tdiv_eq_ediv (by omega) (le_of_lt hd),
          Int.tdiv_eq_ediv (by omega) (le_of_lt hd)]
        exact Int.ediv_le_ediv hd (by omega)
      rw [Int.neg_tdiv, Int.neg_tdiv] at key
      omega

/-- `wrap32` is the identity on the `i32` range. -/
theorem wrap32_eq_self {n : Int} (h1 : -(2 ^ 31) ≤ n) (h2 : n < 2 ^ 31) :
    wrap32 n = n := by
  unfold wrap32
  rw [Int.emod_eq_of_lt (by omega) (by omega)]
  omega

/-- With `flat = 0` the deadzone band is `[0, 0]`, so `apply_flatness` is the
identity. -/
theorem apply_flatness_flat_zero (x : Int) : apply_flatness x 0 = x := by
  unfold apply_flatness
  have hw : Int.ediv (wrap32 (-(0 : Int))) 2 = 0 := by decide
  have hz : Int.ediv (0 : Int) 2 = 0 := by decide
  rw [hw, hz]
  split
  · omega
  · rfl

/-- For non-negative `flat` in the `i32` range, `apply_flatness` returns `0`
exactly on the band `[(-flat).ediv 2, flat.ediv 2]` (which contains `0`). -/
theorem apply_flatness_eq_zero_iff {x f : Int} (hf0 : 0 ≤ f) (hf : f < 2 ^ 31) :
    apply_flatness x f = 0 ↔ Int.ediv (-f) 2 ≤ x ∧ x ≤ Int.ediv f 2 := by
  have hw : wrap32 (-f) = -f := wrap32_eq_self (by omega) (by omega)
  have hlo : Int.ediv (-f) 2 ≤ 0 := by
    have h := Int.ediv_le_ediv (by norm_num : (0 : Int) < 2) (by omega : -f ≤ (0 : Int))
    simpa using h
  have hhi : (0 : Int) ≤ Int.ediv f 2 := Int.ediv_nonneg hf0 (by norm_num)
  unfold apply_flatness
  rw [hw]
  split
  · next h => simp [h]
  · next h =>
    constructor
    · rintro rfl
      exact absurd ⟨hlo, hhi⟩ h
    · intro hc
      exact absurd hc h

/-- The pre-deadzone scaled value is monotone in the raw `value` field whenever
the calibrated range is positive. -/
theorem norm_value_pre_mono {c : CAbsInfo} {v1 v2 : Int} (hr : 0 < range_size c)
    (h : v1 ≤ v2) :
    norm_value_pre (set_value c v1) ≤ norm_value_pre (set_value c v2) := by
  have hclamp : clamp_value (set_value c v1) ≤ clamp_value (set_value c v2) :=
    min_le_min (max_le_max h (le_refl _)) (le_refl _)
  have hmul : clamp_value (set_value c v1) * I16_RANGE ≤
      clamp_value (set_value c v2) * I16_RANGE :=
    mul_le_mul_of_nonneg_right hclamp (by norm_num [I16_RANGE])
  have hdiv := tdiv_le_tdiv_of_le (d := range_size c) hr hmul
  exact Int.add_le_add_right hdiv _

/-- Unfolding characterisation of `get_normalized_value` returning a value. -/
theorem gnv_eq_some_iff {c : CAbsInfo} {n : Int} :
    get_normalized_value c = some n ↔
      range_size c ≠ 0 ∧ I16_MIN ≤ norm_value_pre c ∧ norm_value_pre c ≤ I16_MAX ∧
        apply_flatness (norm_value_pre c) c.flat = n := by
  unfold get_normalized_value
  split_ifs with h1 h2
  · simp [h1]
  · constructor
    · intro h
      exact absurd h (by simp)
    · intro ⟨_, hb1, hb2, _⟩
      omega
  · push_neg at h2
    constructor
    · intro h
      exact ⟨h1, h2.1, h2.2, Option.some_injective _ h⟩
    · intro ⟨_, _, _, he⟩
      rw [he]

/-! ### Claim theorems -/

/-- C1: the claim states that for every calibration with `maximum > minimum` and
`flat = 0`, normalization maps `value = minimum` to exactly `-32768` and
`value = maximum` to exactly `32767`.  The code computes
`clamped * 65535 / range + (-32768 - minimum)` instead of
`(clamped - minimum) * 65535 / range - 32768`, which agrees only when
`minimum = 0`.  At `minimum = 1, maximum = 2, flat = 0` the code maps the
minimum to `32766` (not `-32768`) and panics on the maximum (scaled value
`98301` fails `i16::try_from(..).expect(..)`, the code's own assertion); with
`minimum = 0` the endpoints are exact. -/
theorem C1_endpoint_eval :
    get_normalized_value ⟨1, 1, 2, 0, 0, 0⟩ = some 32766 ∧
    get_normalized_value ⟨2, 1, 2, 0, 0, 0⟩ = none ∧
    get_normalized_value ⟨0, 0, 1000, 0, 0, 0⟩ = some (-32768) ∧
    get_normalized_value ⟨1000, 0, 1000, 0, 0, 0⟩ = some 32767 := by
  refine ⟨by decide, by decide, by decide, by decide⟩

/-- C2: the claim states that for `maximum ≤ minimum` normalization always fails
distinctly rather than silently producing a value.  The code has no such check
(no `InvalidRange` variant exists): with `minimum = 0, maximum = -1` it clamps
the value to `maximum` and silently returns `32767`; only the `maximum = minimum`
case reliably fails (division-by-zero panic, modelled as `none`). -/
theorem C2_degenerate_range_eval :
    get_normalized_value ⟨0, 0, -1, 0, 0, 0⟩ = some 32767 ∧
    get_normalized_value ⟨5, 3, 3, 0, 0, 0⟩ = none := by
  refine ⟨by decide, by decide⟩

/-- C4: for every scaled value `s` in the `i16` range and every `i32` `flat`
(including negative values), `apply_flatness` returns `0` exactly when `s` lies
in the inclusive band `[(-flat).div_euclid(2), flat.div_euclid(2)]` and returns
`s` unchanged otherwise; the function is total (the only overflow point,
`-flat` at `flat = i32::MIN`, wraps under release semantics, and the band then
misses every `i16` value either way). -/
theorem C4_flatness_band (s f : Int) (hs1 : -32768 ≤ s) (hs2 : s ≤ 32767)
    (hf1 : -(2 ^ 31) ≤ f) (hf2 : f < 2 ^ 31) :
    apply_flatness s f = if Int.ediv (-f) 2 ≤ s ∧ s ≤ Int.ediv f 2 then 0 else s := by
  rcases eq_or_lt_of_le hf1 with hmin | hgt
  · subst hmin
    have e1 : Int.ediv (wrap32 (-(-(2 ^ 31) : Int))) 2 = -(2 ^ 30) := by decide
    have e2 : Int.ediv (-(-(2 ^ 31) : Int)) 2 = 2 ^ 30 := by decide
    have e3 : Int.ediv (-(2 ^ 31) : Int) 2 = -(2 ^ 30) := by decide
    unfold apply_flatness
    rw [e1, e2, e3]
    rw [if_neg (by omega), if_neg (by omega)]
  · have hw : wrap32 (-f) = -f := wrap32_eq_self (by omega) (by omega)
    unfold apply_flatness
    rw [hw]

/-- Witness for C4 at `s = 0, f = 100`: the band is `[-50, 50]`, so the result
is `0`. -/
theorem C4_flatness_band_witness :
    (-32768 ≤ (0 : Int) ∧ (0 : Int) ≤ 32767 ∧ -(2 ^ 31) ≤ (100 : Int) ∧
      (100 : Int) < 2 ^ 31) ∧
    apply_flatness 0 100 =
      (if Int.ediv (-(100 : Int)) 2 ≤ 0 ∧ (0 : Int) ≤ Int.ediv 100 2 then 0 else 0) :=
  ⟨⟨by decide, by decide, by decide, by decide⟩,
    C4_flatness_band 0 100 (by decide) (by decide) (by decide) (by decide)⟩

/-- C5: for every axis index up to `ABS_MAX`, the ioctl codec produces the exact
ABI request codes on both bit-field layouts: on the default layout (2 direction
bits, 14 size bits, read = 2, write = 1) the get code is `0x80184540 + axis` and
the set code is `0x401845c0 + axis`; on the powerpc/sparc/mips layout (3
direction bits, 13 size bits, read = 2, write = 4) they are `0x40184540 + axis`
and `0x801845c0 + axis`.  These closed forms pin down every field: direction at
its platform shift, size `24 = size_of::<input_absinfo>()` at bit 16, magic
`b'E' = 0x45` at bit 8, and command number `0x40 + axis` resp. `0xc0 + axis` in
the low byte. -/
theorem C5_ioctl_codes (axis : Nat) (h : axis ≤ ABS_MAX) :
    evioc_get_abs defaultArch axis = 0x80184540 + axis ∧
    evioc_set_abs defaultArch axis = 0x401845c0 + axis ∧
    evioc_get_abs altArch axis = 0x40184540 + axis ∧
    evioc_set_abs altArch axis = 0x801845c0 + axis := by
  have hA : ABS_MAX = 63 := rfl
  have h64 : axis < 64 := by omega
  have key : ∀ a : Fin 64,
      evioc_get_abs defaultArch a.val = 0x80184540 + a.val ∧
      evioc_set_abs defaultArch a.val = 0x401845c0 + a.val ∧
      evioc_get_abs altArch a.val = 0x40184540 + a.val ∧
      evioc_set_abs altArch a.val = 0x801845c0 + a.val := by decide
  exact key ⟨axis, h64⟩

/-- Witness for C5 at axis 5 (`ABS_RZ`). -/
theorem C5_ioctl_codes_witness :
    5 ≤ ABS_MAX ∧ evioc_get_abs defaultArch 5 = 0x80184545 ∧
      evioc_set_abs defaultArch 5 = 0x401845c5 :=
  ⟨by decide,
    ((C5_ioctl_codes 5 (by decide)).1.trans (by decide)),
    ((C5_ioctl_codes 5 (by decide)).2.1.trans (by decide))⟩

/-- C8 counterexample: the claim asserts monotonicity of normalization over all
of `[minimum, maximum]` whenever `maximum > minimum` and `flat = 0`.  At
`minimum = 1, maximum = 2` (where `1 ≤ 2`, both endpoints in range, flat `0`)
`normalize(2)` does not return at all — the scaled value `98301` overflows
`i16::try_from` and the code panics — so no pair of outputs witnessing the
claimed inequality exists. -/
theorem C8_monotonicity_counterexample :
    ¬ (∃ n1 n2 : Int, get_normalized_value ⟨1, 1, 2, 0, 0, 0⟩ = some n1 ∧
        get_normalized_value ⟨2, 1, 2, 0, 0, 0⟩ = some n2 ∧ n1 ≤ n2) := by
  rintro ⟨n1, n2, -, h2, -⟩
  rw [(by decide : get_normalized_value ⟨2, 1, 2, 0, 0, 0⟩ = (none : Option Int))] at h2
  exact Option.noConfusion h2

/-- C8 (amended): whenever `maximum > minimum`, `flat = 0`, and normalization
actually returns a value (does not panic) for both `v1 ≤ v2` in
`[minimum, maximum]`, the returned values are non-decreasing. -/
theorem C8_normalization_monotone (c : CAbsInfo) (v1 v2 n1 n2 : Int)
    (hrange : c.minimum < c.maximum) (hflat : c.flat = 0)
    (h12 : v1 ≤ v2)
    (_hv1l : c.minimum ≤ v1) (_hv1r : v1 ≤ c.maximum)
    (_hv2l : c.minimum ≤ v2) (_hv2r : v2 ≤ c.maximum)
    (h1 : get_normalized_value (set_value c v1) = some n1)
    (h2 : get_normalized_value (set_value c v2) = some n2) :
    n1 ≤ n2 := by
  have hr : 0 < range_size c := by
    unfold range_size
    omega
  rw [gnv_eq_some_iff] at h1 h2
  obtain ⟨-, -, -, he1⟩ := h1
  obtain ⟨-, -, -, he2⟩ := h2
  rw [show (set_value c v1).flat = 0 from hflat, apply_flatness_flat_zero] at he1
  rw [show (set_value c v2).flat = 0 from hflat, apply_flatness_flat_zero] at he2
  subst he1
  subst he2
  exact norm_value_pre_mono hr h12

/-- Witness for C8 on the spec's own scenario range `[0, 1000]`:
`normalize(100) = -26215 ≤ 26213 = normalize(900)`. -/
theorem C8_normalization_monotone_witness :
    get_normalized_value (set_value ⟨0, 0, 1000, 0, 0, 0⟩ 100) = some (-26215) ∧
    get_normalized_value (set_value ⟨0, 0, 1000, 0, 0, 0⟩ 900) = some 26213 ∧
    (-26215 : Int) ≤ 26213 :=
  ⟨by decide, by decide,
    C8_normalization_monotone ⟨0, 0, 1000, 0, 0, 0⟩ 100 900 (-26215) 26213
      (by decide) rfl (by decide) (by decide) (by decide) (by decide) (by decide)
      (by decide) (by decide)⟩

/-- C6 counterexample: the claim asserts the zero-set of normalization is
symmetric around the raw value mapping to `0` before the deadzone step.  With
`minimum = 0, maximum = 65535, flat = 1` the pre-deadzone map is
`v ↦ v - 32768`, whose zero is the raw value `32768`; raw `32767` (center − 1)
normalizes to `0` (scaled `-1` lies in the band `[-1, 0]`) but raw `32769`
(center + 1) normalizes to `1 ≠ 0` — the zero-set `{32767, 32768}` is not
symmetric around `32768`. -/
theorem C6_symmetry_counterexample :
    norm_value_pre ⟨32768, 0, 65535, 0, 1, 0⟩ = 0 ∧
    get_normalized_value ⟨32767, 0, 65535, 0, 1, 0⟩ = some 0 ∧
    ¬ get_normalized_value ⟨32769, 0, 65535, 0, 1, 0⟩ = some 0 := by
  refine ⟨by decide, by decide, by decide⟩

/-- C6 (amended): for `maximum > minimum` and `0 ≤ flat ≤ flat2` (within `i32`),
the set of raw values normalizing to `0` is order-convex (contiguous): any `v`
between two raw values that normalize to `0` also normalizes to `0`; and
increasing the deadzone to `flat2` keeps every such `v` at `0` (the zero-set
never shrinks).  The set equals the preimage of the band
`[-⌈flat/2⌉, ⌊flat/2⌋]`, which for odd `flat` is asymmetric by one step — exact
symmetry around the pre-deadzone zero does not hold. -/
theorem C6_zero_set_contiguous_growing (c : CAbsInfo) (flat2 v1 v v2 : Int)
    (hrange : c.minimum < c.maximum)
    (hflat0 : 0 ≤ c.flat) (hflat12 : c.flat ≤ flat2) (hflat2 : flat2 < 2 ^ 31)
    (h1v : v1 ≤ v) (hv2 : v ≤ v2)
    (h1 : get_normalized_value (set_value c v1) = some 0)
    (h2 : get_normalized_value (set_value c v2) = some 0) :
    get_normalized_value (set_value c v) = some 0 ∧
    get_normalized_value (set_flat (set_value c v) flat2) = some 0 := by
  have hr : 0 < range_size c := by
    unfold range_size
    omega
  have hcf : c.flat < 2 ^ 31 := by omega
  rw [gnv_eq_some_iff] at h1 h2
  obtain ⟨-, hb1l, hb1r, he1⟩ := h1
  obtain ⟨-, hb2l, hb2r, he2⟩ := h2
  rw [show (set_value c v1).flat = c.flat from rfl,
    apply_flatness_eq_zero_iff hflat0 hcf] at he1
  rw [show (set_value c v2).flat = c.flat from rfl,
    apply_flatness_eq_zero_iff hflat0 hcf] at he2
  have hm1 : norm_value_pre (set_value c v1) ≤ norm_value_pre (set_value c v) :=
    norm_value_pre_mono hr h1v
  have hm2 : norm_value_pre (set_value c v) ≤ norm_value_pre (set_value c v2) :=
    norm_value_pre_mono hr hv2
  have hband : Int.ediv (-c.flat) 2 ≤ norm_value_pre (set_value c v) ∧
      norm_value_pre (set_value c v) ≤ Int.ediv c.flat 2 := by
    exact ⟨le_trans he1.1 hm1, le_trans hm2 he2.2⟩
  constructor
  · rw [gnv_eq_some_iff]
    refine ⟨by show range_size c ≠ 0; omega, ?_, ?_, ?_⟩
    · exact le_trans hb1l hm1
    · exact le_trans hm2 hb2r
    · rw [show (set_value c v).flat = c.flat from rfl,
        apply_flatness_eq_zero_iff hflat0 hcf]
      exact hband
  · rw [gnv_eq_some_iff]
    have hpre : norm_value_pre (set_flat (set_value c v) flat2) =
        norm_value_pre (set_value c v) := rfl
    refine ⟨by show range_size c ≠ 0; omega, ?_, ?_, ?_⟩
    · rw [hpre]
      exact le_trans hb1l hm1
    · rw [hpre]
      exact le_trans hm2 hb2r
    · rw [show (set_flat (set_value c v) flat2).flat = flat2 from rfl,
        apply_flatness_eq_zero_iff (by omega) hflat2, hpre]
      have hgrow1 : Int.ediv (-flat2) 2 ≤ Int.ediv (-c.flat) 2 :=
        Int.ediv_le_ediv (by norm_num) (by omega)
      have hgrow2 : Int.ediv c.flat 2 ≤ Int.ediv flat2 2 :=
        Int.ediv_le_ediv (by norm_num) hflat12
      exact ⟨le_trans hgrow1 hband.1, le_trans hband.2 hgrow2⟩

/-- Witness for C6 on the range `[0, 65535]` with `flat = 2, flat2 = 4`:
raw `32767` and `32769` normalize to `0`, hence so does `32768`, also after
widening the deadzone. -/
theorem C6_zero_set_witness :
    get_normalized_value (set_value ⟨0, 0, 65535, 0, 2, 0⟩ 32767) = some 0 ∧
    get_normalized_value (set_value ⟨0, 0, 65535, 0, 2, 0⟩ 32769) = some 0 ∧
    get_normalized_value (set_value ⟨0, 0, 65535, 0, 2, 0⟩ 32768) = some 0 ∧
    get_normalized_value (set_flat (set_value ⟨0, 0, 65535, 0, 2, 0⟩ 32768) 4) = some 0 :=
  ⟨by decide, by decide,
    (C6_zero_set_contiguous_growing ⟨0, 0, 65535, 0, 2, 0⟩ 4 32767 32768 32769
      (by decide) (by decide) (by decide) (by decide) (by decide) (by decide)
      (by decide) (by decide)).1,
    (C6_zero_set_contiguous_growing ⟨0, 0, 65535, 0, 2, 0⟩ 4 32767 32768 32769
      (by decide) (by decide) (by decide) (by decide) (by decide) (by decide)
      (by decide) (by decide)).2⟩

/-- When the bitmask ioctl succeeds, `check_valid_axis` is determined by
`test_axis` on the returned mask. -/
theorem check_valid_axis_eq {dev : DeviceModel} {mask : List Nat} {axis : Nat}
    (hm : dev.absBitmaskReply = Except.ok mask) :
    check_valid_axis dev axis =
      match test_axis axis mask with
      | none => ⟨RunResult.panic, [Syscall.getAbsBit]⟩
      | some false => ⟨RunResult.err (AbsError.nonAbsAxis axis), [Syscall.getAbsBit]⟩
      | some true => ⟨RunResult.ok (), [Syscall.getAbsBit]⟩ := by
  unfold check_valid_axis
  rw [hm]

/-- C3 counterexample: the claim asserts that `set_absinfo` with an axis index
above `ABS_MAX` fails with `UnboundAxis` before any syscall.  In the code only
`get_absinfo` performs that bound check; `set_absinfo` goes straight to
`check_valid_axis`, which first issues the bitmask ioctl and then indexes the
8-byte bitmask at byte `64 / 8 = 8` — out of bounds, a panic.  On the fixture
`dev0` (bitmask ioctl succeeds) with axis `ABS_MAX + 1 = 64`, the set
operation's result is a panic, not `UnboundAxis`, and its syscall trace is
non-empty. -/
theorem C3_set_unbound_counterexample :
    (set_absinfo dev0 (ABS_MAX + 1) info0).result ≠
      RunResult.err (AbsError.unboundAxis (ABS_MAX + 1)) ∧
    (set_absinfo dev0 (ABS_MAX + 1) info0).trace ≠ [] := by
  refine ⟨by decide, by decide⟩

/-- C3 (amended): for every axis index above `ABS_MAX`, `get_absinfo` fails with
`UnboundAxis` without issuing any syscall; `set_absinfo`, which has no bound
check, issues the bitmask ioctl and then panics on the out-of-bounds bitmask
access (whenever the bitmask ioctl succeeds with the platform-sized mask). -/
theorem C3_unbound_axis (dev : DeviceModel) (axis : Nat) (info : CAbsInfo)
    (mask : List Nat) (h : ABS_MAX < axis)
    (hm : dev.absBitmaskReply = Except.ok mask)
    (hlen : mask.length = ABS_BITMASK_LEN) :
    get_absinfo dev axis = ⟨RunResult.err (AbsError.unboundAxis axis), []⟩ ∧
    set_absinfo dev axis info = ⟨RunResult.panic, [Syscall.getAbsBit]⟩ := by
  have hL : ABS_BITMASK_LEN = 8 := rfl
  have hA : ABS_MAX = 63 := rfl
  have ht : test_axis axis mask = none := by
    unfold test_axis
    have hg : mask.get? (axis / 8) = none := by
      rw [List.get?_eq_none]
      omega
    rw [hg]
  constructor
  · unfold get_absinfo
    rw [if_pos h]
  · unfold set_absinfo
    rw [check_valid_axis_eq hm, ht]

/-- Witness for C3 on the fixture device at axis 64. -/
theorem C3_unbound_axis_witness :
    (ABS_MAX < 64 ∧ dev0.absBitmaskReply = Except.ok (List.replicate 8 0)) ∧
    get_absinfo dev0 64 = ⟨RunResult.err (AbsError.unboundAxis 64), []⟩ ∧
    set_absinfo dev0 64 info0 = ⟨RunResult.panic, [Syscall.getAbsBit]⟩ :=
  ⟨⟨by decide, rfl⟩,
    C3_unbound_axis dev0 64 info0 (List.replicate 8 0) (by decide) rfl (by decide)⟩

/-- C7: for every device whose capability bitmask has bit `axis % 8` of byte
`axis / 8` unset and every axis within the platform range, the axis test
reports the axis unsupported, and both `get_absinfo` and `set_absinfo` fail
with `NonAbsAxis` having issued only the bitmask ioctl — never the
get-calibration or set-calibration ioctl. -/
theorem C7_unsupported_axis (dev : DeviceModel) (axis : Nat) (mask : List Nat)
    (b : Nat) (info : CAbsInfo)
    (haxis : axis ≤ ABS_MAX)
    (hm : dev.absBitmaskReply = Except.ok mask)
    (hb : mask.get? (axis / 8) = some b)
    (hbit : b &&& (1 <<< (axis % 8)) = 0) :
    test_axis axis mask = some false ∧
    get_absinfo dev axis = ⟨RunResult.err (AbsError.nonAbsAxis axis), [Syscall.getAbsBit]⟩ ∧
    set_absinfo dev axis info = ⟨RunResult.err (AbsError.nonAbsAxis axis), [Syscall.getAbsBit]⟩ := by
  have ht : test_axis axis mask = some false := by
    unfold test_axis
    rw [hb]
    show some (b &&& 1 <<< (axis % 8) != 0) = some false
    rw [hbit]
    rfl
  refine ⟨ht, ?_, ?_⟩
  · unfold get_absinfo
    rw [if_neg (Nat.not_lt.mpr haxis), check_valid_axis_eq hm, ht]
  · unfold set_absinfo
    rw [check_valid_axis_eq hm, ht]

/-- Witness for C7 on the all-zero fixture bitmask at axis 5. -/
theorem C7_unsupported_axis_witness :
    (5 ≤ ABS_MAX ∧ (List.replicate 8 0).get? (5 / 8) = some 0 ∧
      0 &&& (1 <<< (5 % 8)) = 0) ∧
    get_absinfo dev0 5 = ⟨RunResult.err (AbsError.nonAbsAxis 5), [Syscall.getAbsBit]⟩ ∧
    set_absinfo dev0 5 info0 = ⟨RunResult.err (AbsError.nonAbsAxis 5), [Syscall.getAbsBit]⟩ :=
  ⟨⟨by decide, by decide, by decide⟩,
    (C7_unsupported_axis dev0 5 (List.replicate 8 0) 0 info0 (by decide) rfl
      (by decide) (by decide)).2.1,
    (C7_unsupported_axis dev0 5 (List.replicate 8 0) 0 info0 (by decide) rfl
      (by decide) (by decide)).2.2⟩

/-- C10: for every axis index up to `ABS_MAX`, the byte index `axis / 8`
computed by `test_axis` is strictly below the bitmask length
`ABS_MAX / 8 + 1`, so on any platform-sized bitmask the access is in bounds
(`test_axis` is total, returns `some`) and `check_valid_axis` cannot panic. -/
theorem C10_test_axis_in_bounds (axis : Nat) (h : axis ≤ ABS_MAX) :
    axis / 8 < ABS_BITMASK_LEN ∧
    (∀ mask : List Nat, mask.length = ABS_BITMASK_LEN → (test_axis axis mask).isSome) ∧
    (∀ dev : DeviceModel, ∀ mask : List Nat, dev.absBitmaskReply = Except.ok mask →
      mask.length = ABS_BITMASK_LEN →
      (check_valid_axis dev axis).result ≠ RunResult.panic) := by
  have hA : ABS_MAX = 63 := rfl
  have hL : ABS_BITMASK_LEN = 8 := rfl
  have hidx : axis / 8 < ABS_BITMASK_LEN := by omega
  have hsome : ∀ mask : List Nat, mask.length = ABS_BITMASK_LEN →
      (test_axis axis mask).isSome := by
    intro mask hlen
    unfold test_axis
    cases hg : mask.get? (axis / 8) with
    | none =>
      exfalso
      have := List.get?_eq_none.mp hg
      omega
    | some byte => rfl
  refine ⟨hidx, hsome, ?_⟩
  intro dev mask hm hlen
  have hs := hsome mask hlen
  rw [check_valid_axis_eq hm]
  cases hT : test_axis axis mask with
  | none =>
    rw [hT] at hs
    exact absurd hs (by decide)
  | some bb =>
    cases bb
    · exact fun hc => RunResult.noConfusion hc
    · exact fun hc => RunResult.noConfusion hc

/-- Witness for C10 at axis 63 (the platform maximum itself): byte index 7. -/
theorem C10_test_axis_in_bounds_witness :
    63 ≤ ABS_MAX ∧ 63 / 8 < ABS_BITMASK_LEN :=
  ⟨by decide, (C10_test_axis_in_bounds 63 (by decide)).1⟩

/-- C9: on a scripted device handle that reports a resynchronisation request
once, then delivers two events, then fails with a non-EAGAIN I/O error, pulling
`JoystickEvents::next` repeatedly yields exactly the two delivered events in
order and then nothing (the fatal error ends the iterator); and a would-block
(EAGAIN) reply never terminates a pull — `next` retries the read with the
NORMAL flag regardless of the current mode.  All scripted replies are handled
totally (no panic path exists in the iterator). -/
theorem C9_event_sequence (e1 e2 s : Nat) :
    allEvents [ReadReply.sync s, ReadReply.success e1, ReadReply.success e2,
      ReadReply.errOther] = [e1, e2] ∧
    (∀ (flag : ReadFlag) (rest : List ReadReply),
      joystickNext flag (ReadReply.errAgain :: rest) =
        joystickNext ReadFlag.normal rest) := by
  refine ⟨rfl, fun flag rest => rfl⟩
